import Mathlib

/-!
Shallow embedding of the `uk-police-api` Rust crate: the serde-based JSON
decoding layer (`src/models/*.rs`), the area query-fragment encoder and the
URL builders (`src/client.rs`), and the error classification (`src/error.rs`),
together with theorems checking the crate's specification against the code.
-/

set_option maxHeartbeats 1000000

namespace UkPolice

/-! ## JSON values

A model of `serde_json::Value`. Numbers are modelled as integers: none of the
decoded schemas carries a fractional numeric field, and the claims under
verification only exercise integral numbers.
-/

/-- A JSON value, as in `serde_json::Value` (numbers restricted to integers). -/
inductive Json where
  | null
  | bool (b : Bool)
  | num (n : Int)
  | str (s : String)
  | arr (elems : List Json)
  | obj (fields : List (String × Json))
deriving Repr

/-- Whether an `Except` result is a success. -/
def isOkB {ε α : Type} : Except ε α → Bool
  | .ok _ => true
  | .error _ => false

/-! ## Generic serde field access

serde's derived `Deserialize` for a struct looks each declared key up in the
JSON object; unknown keys are ignored (no `deny_unknown_fields` attribute
appears in the crate). A field of type `Option<T>` defaults to `None` when the
key is missing, and decodes `null` to `None`; any other field is required.
-/

/-- Look a key up in a JSON object's field list (first match, as serde sees
the first occurrence of a key). -/
def getKey (fields : List (String × Json)) (k : String) : Option Json :=
  fields.lookup k

/-- Decode a required struct field: missing key is a hard decode failure. -/
def reqField {T : Type} (fields : List (String × Json)) (k : String)
    (dec : Json → Except String T) : Except String T :=
  match getKey fields k with
  | none => .error ("missing field " ++ k)
  | some v => dec v

/-- Decode an `Option<T>` struct field: missing key or `null` is `none`;
any other value must decode as `T`. -/
def optField {T : Type} (fields : List (String × Json)) (k : String)
    (dec : Json → Except String T) : Except String (Option T) :=
  match getKey fields k with
  | none => .ok none
  | some .null => .ok none
  | some v => (dec v).map some

/-- serde decoder for a JSON string. -/
def decString : Json → Except String String
  | .str s => .ok s
  | _ => .error "invalid type: expected a string"

/-- serde decoder for a `u64` (a non-negative JSON integer). -/
def decU64 : Json → Except String Nat
  | .num n => if n < 0 then .error "invalid value: expected u64" else .ok n.toNat
  | _ => .error "invalid type: expected u64"

/-- serde decoder for a `bool`. -/
def decBool : Json → Except String Bool
  | .bool b => .ok b
  | _ => .error "invalid type: expected a boolean"

/-- serde decoder for a `Vec<T>`. -/
def decArray {T : Type} (dec : Json → Except String T) : Json → Except String (List T)
  | .arr xs => xs.mapM dec
  | _ => .error "invalid type: expected an array"

/-! ## `src/models/crime.rs`: `OutcomeCategory`

The Rust enum carries, per variant, a `#[serde(rename = slug)]` and a
`#[serde(alias = phrase)]` attribute; the derived `Deserialize` accepts a JSON
string matching either spelling exactly and rejects everything else (there is
no catch-all variant).
-/

/-- Outcome category tags, one per variant of the Rust `OutcomeCategory`. -/
inductive OutcomeCategory where
  | awaitingCourtResult
  | courtResultUnavailable
  | unableToProceed
  | localResolution
  | noFurtherAction
  | deprivedOfProperty
  | fined
  | absoluteDischarge
  | cautioned
  | drugsPossessionWarning
  | penaltyNoticeIssued
  | communityPenalty
  | conditionalDischarge
  | suspendedSentence
  | imprisoned
  | otherCourtDisposal
  | compensation
  | sentencedInAnotherCase
  | charged
  | notGuilty
  | sentToCrownCourt
  | unableToProsecute
  | formalActionNotInPublicInterest
  | actionTakenByAnotherOrganisation
  | furtherInvestigationNotInPublicInterest
  | furtherActionNotInPublicInterest
  | underInvestigation
  | statusUpdateUnavailable
deriving DecidableEq, Repr

/-- The kebab-case slug spelling of a tag (`#[serde(rename = ...)]`). -/
def OutcomeCategory.slug : OutcomeCategory → String
  | .awaitingCourtResult => "awaiting-court-result"
  | .courtResultUnavailable => "court-result-unavailable"
  | .unableToProceed => "unable-to-proceed"
  | .localResolution => "local-resolution"
  | .noFurtherAction => "no-further-action"
  | .deprivedOfProperty => "deprived-of-property"
  | .fined => "fined"
  | .absoluteDischarge => "absolute-discharge"
  | .cautioned => "cautioned"
  | .drugsPossessionWarning => "drugs-possession-warning"
  | .penaltyNoticeIssued => "penalty-notice-issued"
  | .communityPenalty => "community-penalty"
  | .conditionalDischarge => "conditional-discharge"
  | .suspendedSentence => "suspended-sentence"
  | .imprisoned => "imprisoned"
  | .otherCourtDisposal => "other-court-disposal"
  | .compensation => "compensation"
  | .sentencedInAnotherCase => "sentenced-in-another-case"
  | .charged => "charged"
  | .notGuilty => "not-guilty"
  | .sentToCrownCourt => "sent-to-crown-court"
  | .unableToProsecute => "unable-to-prosecute"
  | .formalActionNotInPublicInterest => "formal-action-not-in-public-interest"
  | .actionTakenByAnotherOrganisation => "action-taken-by-another-organisation"
  | .furtherInvestigationNotInPublicInterest => "further-investigation-not-in-public-interest"
  | .furtherActionNotInPublicInterest => "further-action-not-in-public-interest"
  | .underInvestigation => "under-investigation"
  | .statusUpdateUnavailable => "status-update-unavailable"

/-- The human-phrase spelling of a tag (`#[serde(alias = ...)]`). -/
def OutcomeCategory.phrase : OutcomeCategory → String
  | .awaitingCourtResult => "Awaiting court outcome"
  | .courtResultUnavailable => "Court result unavailable"
  | .unableToProceed => "Court case unable to proceed"
  | .localResolution => "Local resolution"
  | .noFurtherAction => "Investigation complete; no suspect identified"
  | .deprivedOfProperty => "Offender deprived of property"
  | .fined => "Offender fined"
  | .absoluteDischarge => "Offender given absolute discharge"
  | .cautioned => "Offender given a caution"
  | .drugsPossessionWarning => "Offender given a drugs possession warning"
  | .penaltyNoticeIssued => "Offender given a penalty notice"
  | .communityPenalty => "Offender given community sentence"
  | .conditionalDischarge => "Offender given conditional discharge"
  | .suspendedSentence => "Offender given suspended prison sentence"
  | .imprisoned => "Offender sent to prison"
  | .otherCourtDisposal => "Offender otherwise dealt with"
  | .compensation => "Offender ordered to pay compensation"
  | .sentencedInAnotherCase => "Suspect charged as part of another case"
  | .charged => "Suspect charged"
  | .notGuilty => "Defendant found not guilty"
  | .sentToCrownCourt => "Defendant sent to Crown Court"
  | .unableToProsecute => "Unable to prosecute suspect"
  | .formalActionNotInPublicInterest => "Formal action is not in the public interest"
  | .actionTakenByAnotherOrganisation => "Action to be taken by another organisation"
  | .furtherInvestigationNotInPublicInterest => "Further investigation is not in the public interest"
  | .furtherActionNotInPublicInterest => "Further action is not in the public interest"
  | .underInvestigation => "Under investigation"
  | .statusUpdateUnavailable => "Status update unavailable"

/-- All tags of the closed `OutcomeCategory` enum, in source order. -/
def OutcomeCategory.allTags : List OutcomeCategory :=
  [.awaitingCourtResult, .courtResultUnavailable, .unableToProceed,
   .localResolution, .noFurtherAction, .deprivedOfProperty, .fined,
   .absoluteDischarge, .cautioned, .drugsPossessionWarning,
   .penaltyNoticeIssued, .communityPenalty, .conditionalDischarge,
   .suspendedSentence, .imprisoned, .otherCourtDisposal, .compensation,
   .sentencedInAnotherCase, .charged, .notGuilty, .sentToCrownCourt,
   .unableToProsecute, .formalActionNotInPublicInterest,
   .actionTakenByAnotherOrganisation, .furtherInvestigationNotInPublicInterest,
   .furtherActionNotInPublicInterest, .underInvestigation,
   .statusUpdateUnavailable]

/-- The alias table the derived deserializer matches against: per variant, the
`rename` spelling and the `alias` spelling, both mapping to that variant. -/
def categoryTable : List (String × OutcomeCategory) :=
  OutcomeCategory.allTags.flatMap fun t => [(t.slug, t), (t.phrase, t)]

/-- String-level decode of `OutcomeCategory`: exact match against either
spelling of some variant, hard failure otherwise. -/
def decodeCategoryStr (s : String) : Except String OutcomeCategory :=
  match categoryTable.find? (fun e => e.1 == s) with
  | some e => .ok e.2
  | none => .error ("unknown variant " ++ s)

/-- serde decoder for `OutcomeCategory` (a unit-variant enum expects a JSON
string). -/
def decOutcomeCategory : Json → Except String OutcomeCategory
  | .str s => decodeCategoryStr s
  | _ => .error "invalid type: expected a string"

/-! ## `src/models/crime.rs`: entity structs and their serde decoders -/

/-- A category of crime (`CrimeCategory` in `crime.rs`). -/
structure CrimeCategory where
  url : String
  name : String
deriving DecidableEq, Repr

/-- serde decoder for `CrimeCategory`. -/
def decCrimeCategory : Json → Except String CrimeCategory
  | .obj fields => do
    let url ← reqField fields "url" decString
    let name ← reqField fields "name" decString
    .ok { url, name }
  | _ => .error "invalid type: expected struct CrimeCategory"

/-- A street associated with a crime location (`Street` in `crime.rs`). -/
structure Street where
  id : Nat
  name : String
deriving DecidableEq, Repr

/-- Approximate location of a crime (`Location` in `crime.rs`). -/
structure Location where
  latitude : String
  street : Street
  longitude : String
deriving DecidableEq, Repr

/-- The latest outcome of a crime (`OutcomeStatus` in `crime.rs`). -/
structure OutcomeStatus where
  category : OutcomeCategory
  date : String
deriving DecidableEq, Repr

/-- A crime record (`Crime` in `crime.rs`); field order and optionality as in
the source. -/
structure Crime where
  category : String
  persistent_id : String
  location_subtype : String
  id : Nat
  location : Option Location
  context : String
  month : String
  location_type : Option String
  outcome_status : Option OutcomeStatus
deriving DecidableEq, Repr

/-- serde decoder for `Street`. -/
def decStreet : Json → Except String Street
  | .obj fields => do
    let id ← reqField fields "id" decU64
    let name ← reqField fields "name" decString
    .ok { id, name }
  | _ => .error "invalid type: expected struct Street"

/-- serde decoder for `Location`. -/
def decLocation : Json → Except String Location
  | .obj fields => do
    let latitude ← reqField fields "latitude" decString
    let street ← reqField fields "street" decStreet
    let longitude ← reqField fields "longitude" decString
    .ok { latitude, street, longitude }
  | _ => .error "invalid type: expected struct Location"

/-- serde decoder for `OutcomeStatus`. -/
def decOutcomeStatus : Json → Except String OutcomeStatus
  | .obj fields => do
    let category ← reqField fields "category" decOutcomeCategory
    let date ← reqField fields "date" decString
    .ok { category, date }
  | _ => .error "invalid type: expected struct OutcomeStatus"

/-- serde decoder for `Crime` applied to an object's field list. -/
def crimeOfFields (fields : List (String × Json)) : Except String Crime := do
  let category ← reqField fields "category" decString
  let persistent_id ← reqField fields "persistent_id" decString
  let location_subtype ← reqField fields "location_subtype" decString
  let id ← reqField fields "id" decU64
  let location ← optField fields "location" decLocation
  let context ← reqField fields "context" decString
  let month ← reqField fields "month" decString
  let location_type ← optField fields "location_type" decString
  let outcome_status ← optField fields "outcome_status" decOutcomeStatus
  .ok { category, persistent_id, location_subtype, id, location, context,
        month, location_type, outcome_status }

/-- serde decoder for `Crime`. -/
def decCrime : Json → Except String Crime
  | .obj fields => crimeOfFields fields
  | _ => .error "invalid type: expected struct Crime"

/-- The date when crime data was last updated (`CrimeLastUpdated` in
`crime.rs`). -/
structure CrimeLastUpdated where
  date : String
deriving DecidableEq, Repr

/-- serde decoder for `CrimeLastUpdated`. -/
def decCrimeLastUpdated : Json → Except String CrimeLastUpdated
  | .obj fields => do
    let date ← reqField fields "date" decString
    .ok { date }
  | _ => .error "invalid type: expected struct CrimeLastUpdated"

/-- Outcome category detail object (`OutcomeDetail` in `crime.rs`). -/
structure OutcomeDetail where
  code : OutcomeCategory
  name : String
deriving DecidableEq, Repr

/-- serde decoder for `OutcomeDetail`. -/
def decOutcomeDetail : Json → Except String OutcomeDetail
  | .obj fields => do
    let code ← reqField fields "code" decOutcomeCategory
    let name ← reqField fields "name" decString
    .ok { code, name }
  | _ => .error "invalid type: expected struct OutcomeDetail"

/-- A street-level outcome record (`Outcome` in `crime.rs`). -/
structure Outcome where
  category : OutcomeDetail
  date : String
  person_id : Option String
  crime : Crime
deriving DecidableEq, Repr

/-- serde decoder for `Outcome`. -/
def decOutcome : Json → Except String Outcome
  | .obj fields => do
    let category ← reqField fields "category" decOutcomeDetail
    let date ← reqField fields "date" decString
    let person_id ← optField fields "person_id" decString
    let crime ← reqField fields "crime" decCrime
    .ok { category, date, person_id, crime }
  | _ => .error "invalid type: expected struct Outcome"

/-- An individual outcome within a `CrimeOutcomes` response (`CrimeOutcome`
in `crime.rs`). -/
structure CrimeOutcome where
  category : OutcomeDetail
  date : String
  person_id : Option String
deriving DecidableEq, Repr

/-- serde decoder for `CrimeOutcome`. -/
def decCrimeOutcome : Json → Except String CrimeOutcome
  | .obj fields => do
    let category ← reqField fields "category" decOutcomeDetail
    let date ← reqField fields "date" decString
    let person_id ← optField fields "person_id" decString
    .ok { category, date, person_id }
  | _ => .error "invalid type: expected struct CrimeOutcome"

/-- All outcomes for a specific crime (`CrimeOutcomes` in `crime.rs`). -/
structure CrimeOutcomes where
  crime : Crime
  outcomes : List CrimeOutcome
deriving DecidableEq, Repr

/-- serde decoder for `CrimeOutcomes`. -/
def decCrimeOutcomes : Json → Except String CrimeOutcomes
  | .obj fields => do
    let crime ← reqField fields "crime" decCrime
    let outcomes ← reqField fields "outcomes" (decArray decCrimeOutcome)
    .ok { crime, outcomes }
  | _ => .error "invalid type: expected struct CrimeOutcomes"

/-! ## `src/models/force.rs`: `Force` and `ForceDetail` -/

/-- A summary of a police force (`Force` in `force.rs`). -/
structure Force where
  id : String
  name : String
deriving DecidableEq, Repr

/-- A way to engage with a police force (`EngagementMethod` in `force.rs`);
the `kind` field carries `#[serde(rename = "type")]`. -/
structure EngagementMethod where
  kind : String
  title : Option String
  description : Option String
  url : Option String
deriving DecidableEq, Repr

/-- Detailed information about a force (`ForceDetail` in `force.rs`). -/
structure ForceDetail where
  id : String
  name : String
  description : Option String
  url : Option String
  telephone : Option String
  engagement_methods : List EngagementMethod
deriving DecidableEq, Repr

/-- serde decoder for `Force` applied to an object's field list. -/
def forceOfFields (fields : List (String × Json)) : Except String Force := do
  let id ← reqField fields "id" decString
  let name ← reqField fields "name" decString
  .ok { id, name }

/-- serde decoder for `Force`. -/
def decForce : Json → Except String Force
  | .obj fields => forceOfFields fields
  | _ => .error "invalid type: expected struct Force"

/-- serde decoder for `EngagementMethod`. -/
def decEngagementMethod : Json → Except String EngagementMethod
  | .obj fields => do
    let kind ← reqField fields "type" decString
    let title ← optField fields "title" decString
    let description ← optField fields "description" decString
    let url ← optField fields "url" decString
    .ok { kind, title, description, url }
  | _ => .error "invalid type: expected struct EngagementMethod"

/-- serde decoder for `ForceDetail` applied to an object's field list. -/
def forceDetailOfFields (fields : List (String × Json)) : Except String ForceDetail := do
  let id ← reqField fields "id" decString
  let name ← reqField fields "name" decString
  let description ← optField fields "description" decString
  let url ← optField fields "url" decString
  let telephone ← optField fields "telephone" decString
  let engagement_methods ← reqField fields "engagement_methods" (decArray decEngagementMethod)
  .ok { id, name, description, url, telephone, engagement_methods }

/-- serde decoder for `ForceDetail`. -/
def decForceDetail : Json → Except String ForceDetail
  | .obj fields => forceDetailOfFields fields
  | _ => .error "invalid type: expected struct ForceDetail"

/-- Contact details for a senior officer or neighbourhood (`ContactDetails`
in `force.rs`): a flat record of independently optional strings; the
`google_plus` and `e_messaging` fields carry `#[serde(rename = ...)]` with
hyphenated keys. -/
structure ContactDetails where
  email : Option String
  telephone : Option String
  mobile : Option String
  fax : Option String
  web : Option String
  address : Option String
  facebook : Option String
  twitter : Option String
  youtube : Option String
  myspace : Option String
  bebo : Option String
  flickr : Option String
  google_plus : Option String
  forum : Option String
  e_messaging : Option String
  blog : Option String
  rss : Option String
deriving DecidableEq, Repr

/-- serde decoder for `ContactDetails`. -/
def decContactDetails : Json → Except String ContactDetails
  | .obj fields => do
    let email ← optField fields "email" decString
    let telephone ← optField fields "telephone" decString
    let mobile ← optField fields "mobile" decString
    let fax ← optField fields "fax" decString
    let web ← optField fields "web" decString
    let address ← optField fields "address" decString
    let facebook ← optField fields "facebook" decString
    let twitter ← optField fields "twitter" decString
    let youtube ← optField fields "youtube" decString
    let myspace ← optField fields "myspace" decString
    let bebo ← optField fields "bebo" decString
    let flickr ← optField fields "flickr" decString
    let google_plus ← optField fields "google-plus" decString
    let forum ← optField fields "forum" decString
    let e_messaging ← optField fields "e-messaging" decString
    let blog ← optField fields "blog" decString
    let rss ← optField fields "rss" decString
    .ok { email, telephone, mobile, fax, web, address, facebook, twitter,
          youtube, myspace, bebo, flickr, google_plus, forum, e_messaging,
          blog, rss }
  | _ => .error "invalid type: expected struct ContactDetails"

/-- A senior officer of a police force (`SeniorOfficer` in `force.rs`);
`contact_details` is required, not `Option`. -/
structure SeniorOfficer where
  name : String
  rank : String
  bio : Option String
  contact_details : ContactDetails
deriving DecidableEq, Repr

/-- serde decoder for `SeniorOfficer`. -/
def decSeniorOfficer : Json → Except String SeniorOfficer
  | .obj fields => do
    let name ← reqField fields "name" decString
    let rank ← reqField fields "rank" decString
    let bio ← optField fields "bio" decString
    let contact_details ← reqField fields "contact_details" decContactDetails
    .ok { name, rank, bio, contact_details }
  | _ => .error "invalid type: expected struct SeniorOfficer"

/-! ## `src/models/neighbourhood.rs` -/

/-- A neighbourhood summary (`Neighbourhood` in `neighbourhood.rs`). -/
structure Neighbourhood where
  id : String
  name : String
deriving DecidableEq, Repr

/-- serde decoder for `Neighbourhood`. -/
def decNeighbourhood : Json → Except String Neighbourhood
  | .obj fields => do
    let id ← reqField fields "id" decString
    let name ← reqField fields "name" decString
    .ok { id, name }
  | _ => .error "invalid type: expected struct Neighbourhood"

/-- A latitude/longitude pair as strings (`LatLng` in `neighbourhood.rs`). -/
structure LatLng where
  latitude : String
  longitude : String
deriving DecidableEq, Repr

/-- serde decoder for `LatLng`. -/
def decLatLng : Json → Except String LatLng
  | .obj fields => do
    let latitude ← reqField fields "latitude" decString
    let longitude ← reqField fields "longitude" decString
    .ok { latitude, longitude }
  | _ => .error "invalid type: expected struct LatLng"

/-- A link associated with a neighbourhood (`Link` in `neighbourhood.rs`). -/
structure Link where
  url : Option String
  title : Option String
  description : Option String
deriving DecidableEq, Repr

/-- serde decoder for `Link`. -/
def decLink : Json → Except String Link
  | .obj fields => do
    let url ← optField fields "url" decString
    let title ← optField fields "title" decString
    let description ← optField fields "description" decString
    .ok { url, title, description }
  | _ => .error "invalid type: expected struct Link"

/-- A location associated with a neighbourhood (`NeighbourhoodLocation` in
`neighbourhood.rs`); `kind` carries `#[serde(rename = "type")]`. -/
structure NeighbourhoodLocation where
  name : Option String
  latitude : Option String
  longitude : Option String
  postcode : Option String
  address : Option String
  telephone : Option String
  kind : Option String
  description : Option String
deriving DecidableEq, Repr

/-- serde decoder for `NeighbourhoodLocation`. -/
def decNeighbourhoodLocation : Json → Except String NeighbourhoodLocation
  | .obj fields => do
    let name ← optField fields "name" decString
    let latitude ← optField fields "latitude" decString
    let longitude ← optField fields "longitude" decString
    let postcode ← optField fields "postcode" decString
    let address ← optField fields "address" decString
    let telephone ← optField fields "telephone" decString
    let kind ← optField fields "type" decString
    let description ← optField fields "description" decString
    .ok { name, latitude, longitude, postcode, address, telephone, kind,
          description }
  | _ => .error "invalid type: expected struct NeighbourhoodLocation"

/-- Detailed information about a neighbourhood (`NeighbourhoodDetail` in
`neighbourhood.rs`); `contact_details`, `centre`, `links` and `locations`
are required. -/
structure NeighbourhoodDetail where
  id : String
  name : String
  description : Option String
  population : Option String
  url_force : Option String
  contact_details : ContactDetails
  centre : LatLng
  links : List Link
  locations : List NeighbourhoodLocation
deriving DecidableEq, Repr

/-- serde decoder for `NeighbourhoodDetail`. -/
def decNeighbourhoodDetail : Json → Except String NeighbourhoodDetail
  | .obj fields => do
    let id ← reqField fields "id" decString
    let name ← reqField fields "name" decString
    let description ← optField fields "description" decString
    let population ← optField fields "population" decString
    let url_force ← optField fields "url_force" decString
    let contact_details ← reqField fields "contact_details" decContactDetails
    let centre ← reqField fields "centre" decLatLng
    let links ← reqField fields "links" (decArray decLink)
    let locations ← reqField fields "locations" (decArray decNeighbourhoodLocation)
    .ok { id, name, description, population, url_force, contact_details,
          centre, links, locations }
  | _ => .error "invalid type: expected struct NeighbourhoodDetail"

/-- A neighbourhood event (`NeighbourhoodEvent` in `neighbourhood.rs`); all
fields optional, `kind` carries `#[serde(rename = "type")]`. -/
structure NeighbourhoodEvent where
  title : Option String
  description : Option String
  address : Option String
  kind : Option String
  start_date : Option String
  end_date : Option String
  contact_details : Option ContactDetails
deriving DecidableEq, Repr

/-- serde decoder for `NeighbourhoodEvent`. -/
def decNeighbourhoodEvent : Json → Except String NeighbourhoodEvent
  | .obj fields => do
    let title ← optField fields "title" decString
    let description ← optField fields "description" decString
    let address ← optField fields "address" decString
    let kind ← optField fields "type" decString
    let start_date ← optField fields "start_date" decString
    let end_date ← optField fields "end_date" decString
    let contact_details ← optField fields "contact_details" decContactDetails
    .ok { title, description, address, kind, start_date, end_date,
          contact_details }
  | _ => .error "invalid type: expected struct NeighbourhoodEvent"

/-- A neighbourhood policing priority (`NeighbourhoodPriority` in
`neighbourhood.rs`); `issue_date` and `action_date` carry
`#[serde(rename = ...)]` with hyphenated keys. -/
structure NeighbourhoodPriority where
  issue : Option String
  issue_date : Option String
  action : Option String
  action_date : Option String
deriving DecidableEq, Repr

/-- serde decoder for `NeighbourhoodPriority`. -/
def decNeighbourhoodPriority : Json → Except String NeighbourhoodPriority
  | .obj fields => do
    let issue ← optField fields "issue" decString
    let issue_date ← optField fields "issue-date" decString
    let action ← optField fields "action" decString
    let action_date ← optField fields "action-date" decString
    .ok { issue, issue_date, action, action_date }
  | _ => .error "invalid type: expected struct NeighbourhoodPriority"

/-- Result of locating a neighbourhood by coordinates
(`LocateNeighbourhoodResult` in `neighbourhood.rs`); both fields required. -/
structure LocateNeighbourhoodResult where
  force : String
  neighbourhood : String
deriving DecidableEq, Repr

/-- serde decoder for `LocateNeighbourhoodResult`. -/
def decLocateNeighbourhoodResult : Json → Except String LocateNeighbourhoodResult
  | .obj fields => do
    let force ← reqField fields "force" decString
    let neighbourhood ← reqField fields "neighbourhood" decString
    .ok { force, neighbourhood }
  | _ => .error "invalid type: expected struct LocateNeighbourhoodResult"

/-! ## `src/models/stop_and_search.rs` -/

/-- Type of stop and search (`StopAndSearchType`); each variant carries a
`#[serde(rename = ...)]` phrase. -/
inductive StopAndSearchType where
  | person
  | vehicle
  | personAndVehicle
deriving DecidableEq, Repr

/-- serde decoder for `StopAndSearchType`: exact match against the three
renamed phrases, hard failure otherwise. -/
def decStopAndSearchType : Json → Except String StopAndSearchType
  | .str s =>
    if s = "Person search" then .ok .person
    else if s = "Vehicle search" then .ok .vehicle
    else if s = "Person and Vehicle search" then .ok .personAndVehicle
    else .error ("unknown variant " ++ s)
  | _ => .error "invalid type: expected a string"

/-- Outcome identifier returned by the stops-by-force endpoint
(`OutcomeObject`). -/
structure OutcomeObject where
  id : Option String
  name : Option String
deriving DecidableEq, Repr

/-- serde decoder for `OutcomeObject`. -/
def decOutcomeObject : Json → Except String OutcomeObject
  | .obj fields => do
    let id ← optField fields "id" decString
    let name ← optField fields "name" decString
    .ok { id, name }
  | _ => .error "invalid type: expected struct OutcomeObject"

/-- A stop and search record (`StopAndSearch`); `kind` carries
`#[serde(rename = "type")]`, `outcome` carries
`#[serde(default, deserialize_with = "deserialize_outcome")]`, and
`outcome_object` carries `#[serde(default)]`. -/
structure StopAndSearch where
  kind : Option StopAndSearchType
  involved_person : Option Bool
  datetime : Option String
  operation : Option Bool
  operation_name : Option String
  location : Option Location
  gender : Option String
  age_range : Option String
  self_defined_ethnicity : Option String
  officer_defined_ethnicity : Option String
  legislation : Option String
  object_of_search : Option String
  outcome : Option String
  outcome_linked_to_object_of_search : Option Bool
  removal_of_more_than_outer_clothing : Option Bool
  outcome_object : Option OutcomeObject
deriving DecidableEq, Repr

/-- The custom deserializer `deserialize_outcome` in `stop_and_search.rs`:
`Option<StringOrBool>` with `StringOrBool` an untagged `String`-or-`bool`
enum; a string yields its value, `null` and either boolean yield `None`, and
any other JSON type fails the untagged match. -/
def deserialize_outcome : Json → Except String (Option String)
  | .null => .ok none
  | .str s => .ok (some s)
  | .bool _ => .ok none
  | _ => .error "data did not match any variant of untagged enum StringOrBool"

/-- The `outcome` field combines `#[serde(default)]` (missing key yields
`None`) with `deserialize_outcome` applied to a present value. -/
def outcomeField (fields : List (String × Json)) : Except String (Option String) :=
  match getKey fields "outcome" with
  | none => .ok none
  | some v => deserialize_outcome v

/-- The `outcome_object` field: `#[serde(default)]` on an `Option` type, so a
missing key yields `None` and a present value decodes as the `Option`. -/
def outcomeObjectField (fields : List (String × Json)) : Except String (Option OutcomeObject) :=
  optField fields "outcome_object" decOutcomeObject

/-- serde decoder for `StopAndSearch` applied to an object's field list. -/
def stopAndSearchOfFields (fields : List (String × Json)) : Except String StopAndSearch := do
  let kind ← optField fields "type" decStopAndSearchType
  let involved_person ← optField fields "involved_person" decBool
  let datetime ← optField fields "datetime" decString
  let operation ← optField fields "operation" decBool
  let operation_name ← optField fields "operation_name" decString
  let location ← optField fields "location" decLocation
  let gender ← optField fields "gender" decString
  let age_range ← optField fields "age_range" decString
  let self_defined_ethnicity ← optField fields "self_defined_ethnicity" decString
  let officer_defined_ethnicity ← optField fields "officer_defined_ethnicity" decString
  let legislation ← optField fields "legislation" decString
  let object_of_search ← optField fields "object_of_search" decString
  let outcome ← outcomeField fields
  let outcome_linked_to_object_of_search ←
    optField fields "outcome_linked_to_object_of_search" decBool
  let removal_of_more_than_outer_clothing ←
    optField fields "removal_of_more_than_outer_clothing" decBool
  let outcome_object ← outcomeObjectField fields
  .ok { kind, involved_person, datetime, operation, operation_name, location,
        gender, age_range, self_defined_ethnicity, officer_defined_ethnicity,
        legislation, object_of_search, outcome,
        outcome_linked_to_object_of_search,
        removal_of_more_than_outer_clothing, outcome_object }

/-- serde decoder for `StopAndSearch`. -/
def decStopAndSearch : Json → Except String StopAndSearch
  | .obj fields => stopAndSearchOfFields fields
  | _ => .error "invalid type: expected struct StopAndSearch"

/-! ## Area types (`crime.rs`, re-exported by `mod.rs`) and the area encoder

The Rust `Coordinate` stores `f64` latitude and longitude. `area_query` never
computes with these values: the only operation applied to them is Rust's
`Display` formatting, which prints the shortest decimal string that round
trips to the same double. An `f64` is therefore embedded by that rendering
string; two source literals denoting the same double (such as `52.130` and
`52.13`) are the same value and share the same rendering (`"52.13"`).
-/

/-- An IEEE-754 double represented by its Rust `Display` rendering, the only
observation `area_query` makes of it. -/
structure F64 where
  render : String
deriving DecidableEq, Repr

/-- A latitude/longitude pair (`Coordinate` in `crime.rs`). -/
structure Coordinate where
  lat : F64
  lng : F64
deriving DecidableEq, Repr

/-- A geographic area to search (`Area` in `crime.rs`). -/
inductive Area where
  | point (c : Coordinate)
  | custom (coords : List Coordinate)
  | locationId (id : Nat)
deriving DecidableEq, Repr

/-- `Client::area_query` in `client.rs`: the polymorphic area encoder. -/
def area_query : Area → String
  | .point coord => "lat=" ++ coord.lat.render ++ "&lng=" ++ coord.lng.render
  | .custom coords =>
    let poly := String.intercalate ":"
      (coords.map fun c => c.lat.render ++ "," ++ c.lng.render)
    "poly=" ++ poly
  | .locationId id => "location_id=" ++ Nat.repr id

/-! ## `src/error.rs` and `Client::handle_response`

The crate's `Error` enum has exactly two variants: `Http(reqwest::Error)`
(from the `#[from]` conversion applied by `?` to every `reqwest` failure) and
`Api { status, body }`. A `reqwest::Error` internally records its kind; the
two kinds this crate can produce are a request/transport failure (from
`send()`) and a body-decode failure (from `json()`), modelled below.
-/

/-- The wrapped `reqwest::Error`, by the kind it records internally. -/
inductive ReqwestError where
  | transportFail (msg : String)
  | decodeFail (msg : String)
deriving DecidableEq, Repr

/-- The crate's `Error` enum (`src/error.rs`): two variants. -/
inductive Error where
  | Http (e : ReqwestError)
  | Api (status : Nat) (body : String)
deriving DecidableEq, Repr

/-- The classification a caller sees on an `Error`: which variant it is. -/
inductive ErrorKind where
  | http
  | api
deriving DecidableEq, Repr

/-- The variant of an `Error`. -/
def Error.kindOf : Error → ErrorKind
  | .Http _ => .http
  | .Api _ _ => .api

/-- The classification of the error of a result, if it is an error. -/
def resultErrorKind {T : Type} : Except Error T → Option ErrorKind
  | .error e => some e.kindOf
  | .ok _ => none

/-- An HTTP response as `handle_response` observes it: the status code, the
body as best-effort text (`none` models `text()` failing), and the body parsed
as JSON (`none` models a body that is not valid JSON). The two body views
describe the same bytes; the non-2xx branch reads only the text view and the
2xx branch only the parsed view. -/
structure Response where
  status : Nat
  text : Option String
  json : Option Json

/-- `StatusCode::is_success`: a 2xx status. -/
def isSuccess (status : Nat) : Bool :=
  200 ≤ status && status ≤ 299

/-- `Client::handle_response` in `client.rs`: non-2xx yields `Error::Api`
with the raw body text (empty when unreadable, from `unwrap_or_default`);
otherwise the body is decoded by the schema decoder `dec`, a failure being a
`reqwest` decode error wrapped into `Error::Http` by `?`. -/
def handle_response {T : Type} (dec : Json → Except String T)
    (response : Response) : Except Error T :=
  if isSuccess response.status then
    match response.json with
    | none => .error (.Http (.decodeFail "error decoding response body"))
    | some j =>
      match dec j with
      | .ok v => .ok v
      | .error msg => .error (.Http (.decodeFail msg))
  else
    .error (.Api response.status (response.text.getD ""))

/-- One full operation after URL resolution: `send()` may fail with a
transport error (wrapped into `Error::Http` by `?`), otherwise the response
goes through `handle_response`. -/
def run_request {T : Type} (dec : Json → Except String T)
    (sent : Except String Response) : Except Error T :=
  match sent with
  | .error msg => .error (.Http (.transportFail msg))
  | .ok response => handle_response dec response

/-- The client value (`Client` in `client.rs`): an immutable base URL plus a
transport handle; the handle is the `send` function threaded through each
operation below. -/
structure Client where
  base_url : String

/-- URL built by `Client::force`. -/
def force_url (c : Client) (id : String) : String :=
  c.base_url ++ "/forces/" ++ id

/-- `Client::force`, with the transport abstracted as a function from URL to
either a transport failure or a response. -/
def force (c : Client) (id : String)
    (send : String → Except String Response) : Except Error ForceDetail :=
  run_request decForceDetail (send (force_url c id))

/-- URL built by `Client::crime_categories`: the date filter, when given, is
the first query parameter and is appended with a question mark. -/
def crime_categories_url (c : Client) (date : Option String) : String :=
  let url := c.base_url ++ "/crime-categories"
  match date with
  | some d => url ++ "?date=" ++ d
  | none => url

/-- `Client::crime_categories`. -/
def crime_categories (c : Client) (date : Option String)
    (send : String → Except String Response) : Except Error (List CrimeCategory) :=
  run_request (decArray decCrimeCategory) (send (crime_categories_url c date))

/-- URL built by `Client::street_level_crimes`: the area fragment follows the
question mark and the date filter, when given, is appended after it with an
ampersand. -/
def street_level_crimes_url (c : Client) (category : String) (area : Area)
    (date : Option String) : String :=
  let url := c.base_url ++ "/crimes-street/" ++ category ++ "?" ++ area_query area
  match date with
  | some d => url ++ "&date=" ++ d
  | none => url

/-- `Client::street_level_crimes`. -/
def street_level_crimes (c : Client) (category : String) (area : Area)
    (date : Option String) (send : String → Except String Response) :
    Except Error (List Crime) :=
  run_request (decArray decCrime) (send (street_level_crimes_url c category area date))

/-- URL built by `Client::stops_street`: area fragment first, then the
optional date filter with an ampersand. -/
def stops_street_url (c : Client) (area : Area) (date : Option String) : String :=
  let url := c.base_url ++ "/stops-street?" ++ area_query area
  match date with
  | some d => url ++ "&date=" ++ d
  | none => url

/-- `Client::stops_street`. -/
def stops_street (c : Client) (area : Area) (date : Option String)
    (send : String → Except String Response) : Except Error (List StopAndSearch) :=
  run_request (decArray decStopAndSearch) (send (stops_street_url c area date))

/-- URL built by `Client::street_level_outcomes`: area fragment first, then
the optional date filter with an ampersand. -/
def street_level_outcomes_url (c : Client) (area : Area) (date : Option String) : String :=
  let url := c.base_url ++ "/outcomes-at-location?" ++ area_query area
  match date with
  | some d => url ++ "&date=" ++ d
  | none => url

/-- `Client::street_level_outcomes`. -/
def street_level_outcomes (c : Client) (area : Area) (date : Option String)
    (send : String → Except String Response) : Except Error (List Outcome) :=
  run_request (decArray decOutcome) (send (street_level_outcomes_url c area date))

/-- URL built by `Client::crimes_at_location`: the `location_id` query
parameter precedes the optional date filter, which is appended with an
ampersand. -/
def crimes_at_location_url (c : Client) (location_id : Nat)
    (date : Option String) : String :=
  let url := c.base_url ++ "/crimes-at-location?location_id=" ++ Nat.repr location_id
  match date with
  | some d => url ++ "&date=" ++ d
  | none => url

/-- `Client::crimes_at_location`. -/
def crimes_at_location (c : Client) (location_id : Nat) (date : Option String)
    (send : String → Except String Response) : Except Error (List Crime) :=
  run_request (decArray decCrime) (send (crimes_at_location_url c location_id date))

/-- URL built by `Client::crimes_no_location`: the `category` and `force`
query parameters precede the optional date filter, which is appended with an
ampersand. -/
def crimes_no_location_url (c : Client) (category force : String)
    (date : Option String) : String :=
  let url := c.base_url ++ "/crimes-no-location?category=" ++ category
    ++ "&force=" ++ force
  match date with
  | some d => url ++ "&date=" ++ d
  | none => url

/-- `Client::crimes_no_location`. -/
def crimes_no_location (c : Client) (category force : String)
    (date : Option String) (send : String → Except String Response) :
    Except Error (List Crime) :=
  run_request (decArray decCrime) (send (crimes_no_location_url c category force date))

/-- URL built by `Client::stops_at_location`: the `location_id` query
parameter precedes the optional date filter, which is appended with an
ampersand. -/
def stops_at_location_url (c : Client) (location_id : Nat)
    (date : Option String) : String :=
  let url := c.base_url ++ "/stops-at-location?location_id=" ++ Nat.repr location_id
  match date with
  | some d => url ++ "&date=" ++ d
  | none => url

/-- `Client::stops_at_location`. -/
def stops_at_location (c : Client) (location_id : Nat) (date : Option String)
    (send : String → Except String Response) : Except Error (List StopAndSearch) :=
  run_request (decArray decStopAndSearch) (send (stops_at_location_url c location_id date))

/-- URL built by `Client::stops_no_location`: the `force` query parameter
precedes the optional date filter, which is appended with an ampersand. -/
def stops_no_location_url (c : Client) (force : String)
    (date : Option String) : String :=
  let url := c.base_url ++ "/stops-no-location?force=" ++ force
  match date with
  | some d => url ++ "&date=" ++ d
  | none => url

/-- `Client::stops_no_location`. -/
def stops_no_location (c : Client) (force : String) (date : Option String)
    (send : String → Except String Response) : Except Error (List StopAndSearch) :=
  run_request (decArray decStopAndSearch) (send (stops_no_location_url c force date))

/-- URL built by `Client::stops_force`: the `force` query parameter precedes
the optional date filter, which is appended with an ampersand. -/
def stops_force_url (c : Client) (force : String) (date : Option String) : String :=
  let url := c.base_url ++ "/stops-force?force=" ++ force
  match date with
  | some d => url ++ "&date=" ++ d
  | none => url

/-- `Client::stops_force`. -/
def stops_force (c : Client) (force : String) (date : Option String)
    (send : String → Except String Response) : Except Error (List StopAndSearch) :=
  run_request (decArray decStopAndSearch) (send (stops_force_url c force date))

/-! ## Helper lemmas -/

/-- Removing a key from a JSON object's field list. -/
def removeKey (fields : List (String × Json)) (k : String) : List (String × Json) :=
  fields.filter fun e => e.1 != k

/-- Replacing the value of a key in a JSON object's field list. -/
def replaceKey (fields : List (String × Json)) (k : String) (v : Json) :
    List (String × Json) :=
  fields.map fun e => if e.1 == k then (e.1, v) else e

theorem getKey_insert_ne {k c : String} (hne : k ≠ c) (v : Json)
    (l1 l2 : List (String × Json)) :
    getKey (l1 ++ (k, v) :: l2) c = getKey (l1 ++ l2) c := by
  have hck : (c == k) = false := by
    simp only [beq_eq_false_iff_ne]
    exact fun e => hne e.symm
  simp only [getKey, List.lookup_append, List.lookup_cons, hck]

theorem reqField_insert_ne {T : Type} {k c : String} (hne : k ≠ c) (v : Json)
    (l1 l2 : List (String × Json)) (dec : Json → Except String T) :
    reqField (l1 ++ (k, v) :: l2) c dec = reqField (l1 ++ l2) c dec := by
  simp only [reqField, getKey_insert_ne hne]

theorem optField_insert_ne {T : Type} {k c : String} (hne : k ≠ c) (v : Json)
    (l1 l2 : List (String × Json)) (dec : Json → Except String T) :
    optField (l1 ++ (k, v) :: l2) c dec = optField (l1 ++ l2) c dec := by
  simp only [optField, getKey_insert_ne hne]

theorem outcomeField_insert_ne {k : String} (hne : k ≠ "outcome") (v : Json)
    (l1 l2 : List (String × Json)) :
    outcomeField (l1 ++ (k, v) :: l2) = outcomeField (l1 ++ l2) := by
  simp only [outcomeField, getKey_insert_ne hne]

/-! ## C3: the area encoder -/

/-- C3 counterexample input: the polygon from the claim. The third vertex is
written `52.130` in the claim, but as an `f64` that literal denotes the same
double as `52.13`, and Rust `Display` renders that double as `"52.13"`, so
the embedded value carries the rendering `"52.13"`. -/
def claimPolygon : Area :=
  .custom [⟨⟨"52.268"⟩, ⟨"0.543"⟩⟩, ⟨⟨"52.794"⟩, ⟨"0.238"⟩⟩, ⟨⟨"52.13"⟩, ⟨"0.478"⟩⟩]

/-- C3 (counterexample): the claim demands that the polygon
`[(52.268,0.543),(52.794,0.238),(52.130,0.478)]` encode exactly to
`"poly=52.268,0.543:52.794,0.238:52.130,0.478"`, but the `f64` literal
`52.130` is the double `52.13`, whose native rendering drops the trailing
zero, so the code produces `"...52.13,0.478"` and the claimed string is not
produced. -/
theorem c3_counterexample :
    area_query claimPolygon = "poly=52.268,0.543:52.794,0.238:52.13,0.478" ∧
    area_query claimPolygon ≠ "poly=52.268,0.543:52.794,0.238:52.130,0.478" := by
  constructor
  · rfl
  · decide

/-- C3 (amended): `area_query` is a total pure function over the three
`Area` variants with no failure modes: a point encodes to
`lat=...&lng=...`, a polygon to colon-separated `lat,lng` pairs after
`poly=` with vertex order preserved exactly and the empty polygon giving the
degenerate `"poly="`, and a location id to `location_id=...`; on the claim's
concrete inputs it yields `"lat=52.629729&lng=-1.131592"`,
`"poly=52.268,0.543:52.794,0.238:52.13,0.478"` (the third vertex's `f64`
literal `52.130` renders natively as `52.13`), and
`"location_id=1737432"`. -/
theorem c3_area_query_spec :
    (∀ c : Coordinate,
      area_query (.point c) = "lat=" ++ c.lat.render ++ "&lng=" ++ c.lng.render)
    ∧ (∀ coords : List Coordinate,
      area_query (.custom coords) =
        "poly=" ++ String.intercalate ":"
          (coords.map fun c => c.lat.render ++ "," ++ c.lng.render))
    ∧ (∀ id : Nat, area_query (.locationId id) = "location_id=" ++ Nat.repr id)
    ∧ area_query (.custom []) = "poly="
    ∧ area_query (.point ⟨⟨"52.629729"⟩, ⟨"-1.131592"⟩⟩)
        = "lat=52.629729&lng=-1.131592"
    ∧ area_query claimPolygon = "poly=52.268,0.543:52.794,0.238:52.13,0.478"
    ∧ area_query (.locationId 1737432) = "location_id=1737432" := by
  refine ⟨fun c => rfl, fun coords => rfl, fun id => rfl, rfl, rfl, rfl, rfl⟩

/-! ## C8: URL construction and date-filter placement -/

/-- C8: URL construction is deterministic (the builders are pure functions of
their arguments) and places the optional date filter as claimed, for every
date-taking operation of the client: for `crime_categories` no query
parameter precedes it and it is appended as `?date=...`; for each of the
eight other date-taking operations (`street_level_crimes`,
`street_level_outcomes`, `crimes_at_location`, `crimes_no_location`,
`stops_street`, `stops_at_location`, `stops_no_location`, `stops_force`) it
is appended as `&date=...` after the existing query parameters, with the
`Area` fragment — where the operation takes one — always preceding the date
filter; in particular `street_level_crimes` builds exactly
`base/crimes-street/category?area-fragment` followed by `&date=...` when a
date is given. -/
theorem c8_url_date_placement :
    (∀ (c : Client) (d : String),
      crime_categories_url c (some d) = c.base_url ++ "/crime-categories?date=" ++ d)
    ∧ (∀ c : Client, crime_categories_url c none = c.base_url ++ "/crime-categories")
    ∧ (∀ (c : Client) (cat : String) (a : Area) (d : String),
      street_level_crimes_url c cat a (some d)
        = c.base_url ++ "/crimes-street/" ++ cat ++ "?" ++ area_query a ++ "&date=" ++ d)
    ∧ (∀ (c : Client) (cat : String) (a : Area),
      street_level_crimes_url c cat a none
        = c.base_url ++ "/crimes-street/" ++ cat ++ "?" ++ area_query a)
    ∧ (∀ (c : Client) (a : Area) (d : String),
      stops_street_url c a (some d)
        = c.base_url ++ "/stops-street?" ++ area_query a ++ "&date=" ++ d)
    ∧ (∀ (c : Client) (a : Area),
      stops_street_url c a none = c.base_url ++ "/stops-street?" ++ area_query a)
    ∧ (∀ (c : Client) (a : Area) (d : String),
      street_level_outcomes_url c a (some d)
        = c.base_url ++ "/outcomes-at-location?" ++ area_query a ++ "&date=" ++ d)
    ∧ (∀ (c : Client) (a : Area),
      street_level_outcomes_url c a none
        = c.base_url ++ "/outcomes-at-location?" ++ area_query a)
    ∧ (∀ (c : Client) (lid : Nat) (d : String),
      crimes_at_location_url c lid (some d)
        = c.base_url ++ "/crimes-at-location?location_id=" ++ Nat.repr lid ++ "&date=" ++ d)
    ∧ (∀ (c : Client) (lid : Nat),
      crimes_at_location_url c lid none
        = c.base_url ++ "/crimes-at-location?location_id=" ++ Nat.repr lid)
    ∧ (∀ (c : Client) (cat f d : String),
      crimes_no_location_url c cat f (some d)
        = c.base_url ++ "/crimes-no-location?category=" ++ cat ++ "&force=" ++ f
          ++ "&date=" ++ d)
    ∧ (∀ (c : Client) (cat f : String),
      crimes_no_location_url c cat f none
        = c.base_url ++ "/crimes-no-location?category=" ++ cat ++ "&force=" ++ f)
    ∧ (∀ (c : Client) (lid : Nat) (d : String),
      stops_at_location_url c lid (some d)
        = c.base_url ++ "/stops-at-location?location_id=" ++ Nat.repr lid ++ "&date=" ++ d)
    ∧ (∀ (c : Client) (lid : Nat),
      stops_at_location_url c lid none
        = c.base_url ++ "/stops-at-location?location_id=" ++ Nat.repr lid)
    ∧ (∀ (c : Client) (f d : String),
      stops_no_location_url c f (some d)
        = c.base_url ++ "/stops-no-location?force=" ++ f ++ "&date=" ++ d)
    ∧ (∀ (c : Client) (f : String),
      stops_no_location_url c f none = c.base_url ++ "/stops-no-location?force=" ++ f)
    ∧ (∀ (c : Client) (f d : String),
      stops_force_url c f (some d)
        = c.base_url ++ "/stops-force?force=" ++ f ++ "&date=" ++ d)
    ∧ (∀ (c : Client) (f : String),
      stops_force_url c f none = c.base_url ++ "/stops-force?force=" ++ f) := by
  refine ⟨fun c d => ?_, fun c => rfl, fun c cat a d => ?_, fun c cat a => rfl,
    fun c a d => ?_, fun c a => rfl, fun c a d => rfl, fun c a => rfl,
    fun c lid d => rfl, fun c lid => rfl, fun c cat f d => rfl,
    fun c cat f => rfl, fun c lid d => rfl, fun c lid => rfl,
    fun c f d => rfl, fun c f => rfl, fun c f d => rfl, fun c f => rfl⟩
  · show (c.base_url ++ "/crime-categories") ++ "?date=" ++ d = _
    rw [String.append_assoc c.base_url]
    rfl
  · show (c.base_url ++ "/crimes-street/" ++ cat ++ "?" ++ area_query a) ++ "&date=" ++ d = _
    rfl
  · show (c.base_url ++ "/stops-street?" ++ area_query a) ++ "&date=" ++ d = _
    rfl

/-! ## C1: error classification -/

/-- C1 (counterexample): a transport failure (no HTTP response) and a 2xx
response whose body fails the schema (`null` where `ForceDetail` is expected)
are classified identically by the crate: both are `Error::Http`, because
`handle_response` converts the `reqwest` decode failure with the same
`#[from] reqwest::Error` conversion that wraps transport failures, so the
claim that a decode error is never classified the same as a transport error
is false. -/
theorem c1_counterexample :
    resultErrorKind (force ⟨"https://data.police.uk/api"⟩ "leicestershire"
        (fun _ => .error "connection refused")) = some .http
    ∧ resultErrorKind (force ⟨"https://data.police.uk/api"⟩ "leicestershire"
        (fun _ => .ok ⟨200, some "null", some .null⟩)) = some .http := by
  exact ⟨rfl, rfl⟩

/-- C1 (amended): the crate's `Error` enum distinguishes exactly two
classifications, not three: a non-2xx response is classified as `Error::Api`
carrying the status and raw body, and this variant is disjoint from
`Error::Http`; but a transport failure and a 2xx body failing the schema are
both classified as `Error::Http`, the decode/transport distinction surviving
only inside the wrapped `reqwest` error. -/
theorem c1_two_kind_classification {T : Type} (dec : Json → Except String T) :
    (∀ msg : String,
      run_request dec (.error msg) = .error (.Http (.transportFail msg)))
    ∧ (∀ r : Response, isSuccess r.status = false →
      run_request dec (.ok r) = .error (.Api r.status (r.text.getD "")))
    ∧ (∀ (r : Response) (j : Json) (m : String), isSuccess r.status = true →
      r.json = some j → dec j = .error m →
      run_request dec (.ok r) = .error (.Http (.decodeFail m)))
    ∧ (∀ (s : Nat) (b : String) (e : ReqwestError), Error.Api s b ≠ Error.Http e) := by
  refine ⟨fun msg => rfl, fun r h => ?_, fun r j m hok hj hd => ?_, fun s b e => ?_⟩
  · simp [run_request, handle_response, h]
  · simp [run_request, handle_response, hok, hj, hd]
  · intro h
    exact Error.noConfusion h

/-- C1 witness: the amended theorem applied to the force-detail decoder on a
2xx response whose body is JSON `null`. -/
theorem c1_witness :
    run_request decForceDetail (.ok ⟨200, some "null", some .null⟩)
      = .error (.Http (.decodeFail "invalid type: expected struct ForceDetail")) :=
  (c1_two_kind_classification decForceDetail).2.2.1 ⟨200, some "null", some .null⟩
    .null "invalid type: expected struct ForceDetail" rfl rfl rfl

/-! ## C5: non-2xx responses -/

/-- C5: for every operation (every schema decoder funnels through
`handle_response`), a non-2xx response yields an API error carrying the
numeric status and the raw body text verbatim (empty string when the body is
unreadable); the result does not depend on the schema decoder at all, so the
body is never parsed as structured JSON; and the resulting `Error::Api` is
distinct from every `Error::Http`, hence neither a decode nor a transport
error. -/
theorem c5_api_error {T : Type} (dec : Json → Except String T) (r : Response)
    (h : isSuccess r.status = false) :
    handle_response dec r = .error (.Api r.status (r.text.getD ""))
    ∧ (∀ dec2 : Json → Except String T, handle_response dec2 r = handle_response dec r)
    ∧ (∀ e : ReqwestError, Error.Api r.status (r.text.getD "") ≠ .Http e) := by
  refine ⟨?_, fun dec2 => ?_, fun e h2 => Error.noConfusion h2⟩
  · simp [handle_response, h]
  · simp [handle_response, h]

/-- C5 witness: the force-detail decoder against HTTP 404 with body
`"Not Found"` yields `Error::Api` with status 404 and body `"Not Found"`. -/
theorem c5_witness :
    handle_response decForceDetail ⟨404, some "Not Found", none⟩
      = .error (.Api 404 "Not Found") :=
  (c5_api_error decForceDetail ⟨404, some "Not Found", none⟩ rfl).1

/-! ## C10: determinism of decoding -/

/-- C10: every operation is deterministic in its response: the embedding of
`handle_response` is a pure function of the status and body alone (the
`Client` holds only an immutable base URL and transport handle, modelled by
`Client` and the `send` argument), so two invocations receiving the same 2xx
status, the same body text, and the same body JSON produce structurally equal
decoded values. -/
theorem c10_deterministic {T : Type} (dec : Json → Except String T)
    (r1 r2 : Response) (hok : isSuccess r1.status = true)
    (hs : r1.status = r2.status) (ht : r1.text = r2.text)
    (hj : r1.json = r2.json) :
    handle_response dec r1 = handle_response dec r2 := by
  obtain ⟨s1, t1, j1⟩ := r1
  obtain ⟨s2, t2, j2⟩ := r2
  cases hs
  cases ht
  cases hj
  rfl

/-- C10 witness: two identical 2xx responses (an empty JSON array of crimes)
decode to the same value. -/
theorem c10_witness :
    handle_response (decArray decCrime) ⟨200, some "[]", some (.arr [])⟩
      = handle_response (decArray decCrime) ⟨200, some "[]", some (.arr [])⟩ :=
  c10_deterministic (decArray decCrime) ⟨200, some "[]", some (.arr [])⟩
    ⟨200, some "[]", some (.arr [])⟩ rfl rfl rfl rfl

/-! ## C2 and C9: stop-and-search decode rules -/

/-- The stop-and-search JSON object used by the crate's own tests, with the
`type` and `outcome` values left as parameters. -/
def mockStopFields (typeVal outcomeVal : Json) : List (String × Json) :=
  [("type", typeVal),
   ("involved_person", .bool true),
   ("datetime", .str "2024-01-15T12:30:00+00:00"),
   ("operation", .bool false),
   ("operation_name", .null),
   ("location", .obj
     [("latitude", .str "52.634407"),
      ("street", .obj [("id", .num 1737432), ("name", .str "On or near Vaughan Street")]),
      ("longitude", .str "-1.149381")]),
   ("gender", .str "Male"),
   ("age_range", .str "18-24"),
   ("self_defined_ethnicity", .str "White - English/Welsh/Scottish/Northern Irish/British"),
   ("officer_defined_ethnicity", .str "White"),
   ("legislation", .str "Misuse of Drugs Act 1971 (section 23)"),
   ("object_of_search", .str "Controlled drugs"),
   ("outcome", outcomeVal),
   ("outcome_linked_to_object_of_search", .null),
   ("removal_of_more_than_outer_clothing", .bool false)]

/-- C2 (counterexample): the claim says the literal boolean `true` at the
`outcome` key is a decode error for the whole record, but the untagged
`StringOrBool` helper accepts either boolean and the catch-all match arm maps
it to `None`: `true` decodes to absent, both at the field and at the record
level. -/
theorem c2_counterexample :
    deserialize_outcome (.bool true) = .ok none
    ∧ (stopAndSearchOfFields
        (mockStopFields (.str "Person search") (.bool true))).map
          (fun r => r.outcome) = .ok none := by
  exact ⟨rfl, rfl⟩

/-- C2 (amended): the `outcome` field decodes under the
nullable-with-boolean-sentinel rule: a JSON string decodes to a present value
equal to that string, the literal booleans `false` and `true` and JSON `null`
all decode to absent, and any other JSON type — a number, an object, or an
array — is a decode error for the whole record. -/
theorem c2_outcome_tristate :
    (∀ s : String, deserialize_outcome (.str s) = .ok (some s))
    ∧ deserialize_outcome (.bool false) = .ok none
    ∧ deserialize_outcome .null = .ok none
    ∧ deserialize_outcome (.bool true) = .ok none
    ∧ (∀ n : Int, isOkB (deserialize_outcome (.num n)) = false)
    ∧ (∀ xs : List Json, isOkB (deserialize_outcome (.arr xs)) = false)
    ∧ (∀ fs : List (String × Json), isOkB (deserialize_outcome (.obj fs)) = false)
    ∧ (stopAndSearchOfFields (mockStopFields (.str "Person search") (.str "Arrest"))).map
        (fun r => r.outcome) = .ok (some "Arrest")
    ∧ (stopAndSearchOfFields (mockStopFields (.str "Person search") (.bool false))).map
        (fun r => r.outcome) = .ok none
    ∧ (stopAndSearchOfFields (mockStopFields (.str "Person search") .null)).map
        (fun r => r.outcome) = .ok none
    ∧ isOkB (stopAndSearchOfFields (mockStopFields (.str "Person search") (.num 123)))
        = false := by
  exact ⟨fun s => rfl, rfl, rfl, rfl, fun n => rfl, fun xs => rfl, fun fs => rfl,
    rfl, rfl, rfl, rfl⟩

/-- C9: a `type` key holding a string other than the three exact phrases
fails the decode of the whole record rather than falling back to an absent
kind; a missing or `null` `type` key decodes to an absent kind; and a missing
`outcome` key decodes to an absent outcome. -/
theorem c9_stop_type_strictness :
    isOkB (stopAndSearchOfFields (mockStopFields (.str "Dog search") (.str "Arrest")))
        = false
    ∧ (stopAndSearchOfFields
        (removeKey (mockStopFields (.str "Person search") (.str "Arrest")) "type")).map
          (fun r => r.kind) = .ok none
    ∧ (stopAndSearchOfFields (mockStopFields .null (.str "Arrest"))).map
        (fun r => r.kind) = .ok none
    ∧ (stopAndSearchOfFields
        (removeKey (mockStopFields (.str "Person search") (.str "Arrest")) "outcome")).map
          (fun r => r.outcome) = .ok none
    ∧ (stopAndSearchOfFields
        (mockStopFields (.str "Person search") (.str "Arrest"))).map
          (fun r => r.kind) = .ok (some .person) := by
  exact ⟨rfl, rfl, rfl, rfl, rfl⟩

/-! ## C6: Crime required and optional fields -/

/-- The no-location crime JSON object used by the crate's own tests:
`location`, `location_type` and `outcome_status` are JSON `null`. -/
def mockCrimeFields : List (String × Json) :=
  [("category", .str "burglary"),
   ("persistent_id", .str "abc123"),
   ("location_subtype", .str ""),
   ("id", .num 999),
   ("location", .null),
   ("context", .str ""),
   ("month", .str "2024-01"),
   ("location_type", .null),
   ("outcome_status", .null)]

/-- The keys of `Crime` whose Rust type is not `Option<_>`. -/
def crimeRequiredKeys : List String :=
  ["category", "persistent_id", "location_subtype", "id", "context", "month"]

/-- C6: a Crime object with `location` and `location_type` null (or with the
keys removed altogether) decodes successfully with both fields absent, while
each required key remains mandatory: removing any of them, or giving any of
them a value of the wrong JSON type, is a hard decode failure. -/
theorem c6_crime_partial_payload :
    crimeOfFields mockCrimeFields
      = .ok ⟨"burglary", "abc123", "", 999, none, "", "2024-01", none, none⟩
    ∧ crimeOfFields
        (removeKey (removeKey mockCrimeFields "location") "location_type")
      = .ok ⟨"burglary", "abc123", "", 999, none, "", "2024-01", none, none⟩
    ∧ (crimeRequiredKeys.all fun k =>
        !isOkB (crimeOfFields (removeKey mockCrimeFields k))) = true
    ∧ (crimeRequiredKeys.all fun k =>
        !isOkB (crimeOfFields (replaceKey mockCrimeFields k (.arr [])))) = true := by
  exact ⟨rfl, rfl, rfl, rfl⟩

/-! ## C4: category alias symmetry and strictness -/

theorem categoryTable_spelling :
    ∀ e ∈ categoryTable, e.1 = e.2.slug ∨ e.1 = e.2.phrase := by
  intro e he
  simp only [categoryTable, List.mem_flatMap] at he
  obtain ⟨t, -, he⟩ := he
  simp only [List.mem_cons, List.not_mem_nil, or_false] at he
  rcases he with rfl | rfl
  · exact Or.inl rfl
  · exact Or.inr rfl

/-- C4: for every tag of the closed `OutcomeCategory` enum, both its
kebab-case slug spelling and its human-phrase spelling decode to that same
tag; the lookup is an exact match with no case-folding, trimming, or fuzzy
matching (any accepted string is literally one of the two spellings of the
decoded tag); and a string matching neither spelling set of any tag, such as
`"made-up-category"`, is a hard decode failure with no default or catch-all
tag. -/
theorem c4_category_alias :
    (∀ t : OutcomeCategory,
      decodeCategoryStr t.slug = .ok t ∧ decodeCategoryStr t.phrase = .ok t)
    ∧ (∀ (s : String) (t : OutcomeCategory),
      decodeCategoryStr s = .ok t → s = t.slug ∨ s = t.phrase)
    ∧ isOkB (decodeCategoryStr "made-up-category") = false := by
  refine ⟨fun t => ?_, fun s t h => ?_, rfl⟩
  · cases t <;> exact ⟨rfl, rfl⟩
  · unfold decodeCategoryStr at h
    cases hfind : categoryTable.find? (fun e => e.1 == s) with
    | none => rw [hfind] at h; exact Except.noConfusion h
    | some e =>
      rw [hfind] at h
      have hmem := List.mem_of_find?_eq_some hfind
      have hkey : e.1 = s := by
        have := List.find?_some hfind
        exact eq_of_beq this
      have ht : e.2 = t := by
        cases h
        rfl
      rcases categoryTable_spelling e hmem with hsp | hsp
      · exact Or.inl (hkey ▸ ht ▸ hsp.symm ▸ rfl)
      · exact Or.inr (hkey ▸ ht ▸ hsp.symm ▸ rfl)

/-- C4 witness: the exact-match direction applied at the concrete accepted
string `"local-resolution"`. -/
theorem c4_witness :
    "local-resolution" = OutcomeCategory.localResolution.slug
      ∨ "local-resolution" = OutcomeCategory.localResolution.phrase :=
  c4_category_alias.2.1 "local-resolution" .localResolution rfl

/-! ## C7: unknown JSON keys are ignored -/

/-- The keys declared by the `Crime` schema. -/
def crimeKeys : List String :=
  ["category", "persistent_id", "location_subtype", "id", "location",
   "context", "month", "location_type", "outcome_status"]

/-- The keys declared by the `Force` schema. -/
def forceKeys : List String := ["id", "name"]

/-- The keys declared by the `ForceDetail` schema. -/
def forceDetailKeys : List String :=
  ["id", "name", "description", "url", "telephone", "engagement_methods"]

/-- The keys declared by the `StopAndSearch` schema (`kind` is serialized as
`type`). -/
def stopAndSearchKeys : List String :=
  ["type", "involved_person", "datetime", "operation", "operation_name",
   "location", "gender", "age_range", "self_defined_ethnicity",
   "officer_defined_ethnicity", "legislation", "object_of_search", "outcome",
   "outcome_linked_to_object_of_search", "removal_of_more_than_outer_clothing",
   "outcome_object"]

theorem crimeOfFields_ignores_unknown {k : String} (v : Json)
    (l1 l2 : List (String × Json)) (h : k ∉ crimeKeys) :
    crimeOfFields (l1 ++ (k, v) :: l2) = crimeOfFields (l1 ++ l2) := by
  simp only [crimeKeys, List.mem_cons, List.not_mem_nil, or_false, not_or] at h
  obtain ⟨h1, h2, h3, h4, h5, h6, h7, h8, h9⟩ := h
  simp only [crimeOfFields, reqField_insert_ne h1, reqField_insert_ne h2,
    reqField_insert_ne h3, reqField_insert_ne h4, optField_insert_ne h5,
    reqField_insert_ne h6, reqField_insert_ne h7, optField_insert_ne h8,
    optField_insert_ne h9]

theorem forceOfFields_ignores_unknown {k : String} (v : Json)
    (l1 l2 : List (String × Json)) (h : k ∉ forceKeys) :
    forceOfFields (l1 ++ (k, v) :: l2) = forceOfFields (l1 ++ l2) := by
  simp only [forceKeys, List.mem_cons, List.not_mem_nil, or_false, not_or] at h
  obtain ⟨h1, h2⟩ := h
  simp only [forceOfFields, reqField_insert_ne h1, reqField_insert_ne h2]

theorem forceDetailOfFields_ignores_unknown {k : String} (v : Json)
    (l1 l2 : List (String × Json)) (h : k ∉ forceDetailKeys) :
    forceDetailOfFields (l1 ++ (k, v) :: l2) = forceDetailOfFields (l1 ++ l2) := by
  simp only [forceDetailKeys, List.mem_cons, List.not_mem_nil, or_false, not_or] at h
  obtain ⟨h1, h2, h3, h4, h5, h6⟩ := h
  simp only [forceDetailOfFields, reqField_insert_ne h1, reqField_insert_ne h2,
    optField_insert_ne h3, optField_insert_ne h4, optField_insert_ne h5,
    reqField_insert_ne h6]

theorem stopAndSearchOfFields_ignores_unknown {k : String} (v : Json)
    (l1 l2 : List (String × Json)) (h : k ∉ stopAndSearchKeys) :
    stopAndSearchOfFields (l1 ++ (k, v) :: l2) = stopAndSearchOfFields (l1 ++ l2) := by
  simp only [stopAndSearchKeys, List.mem_cons, List.not_mem_nil, or_false, not_or] at h
  obtain ⟨h1, h2, h3, h4, h5, h6, h7, h8, h9, h10, h11, h12, h13, h14, h15, h16⟩ := h
  simp only [stopAndSearchOfFields, outcomeObjectField, optField_insert_ne h1,
    optField_insert_ne h2, optField_insert_ne h3, optField_insert_ne h4,
    optField_insert_ne h5, optField_insert_ne h6, optField_insert_ne h7,
    optField_insert_ne h8, optField_insert_ne h9, optField_insert_ne h10,
    optField_insert_ne h11, optField_insert_ne h12, outcomeField_insert_ne h13,
    optField_insert_ne h14, optField_insert_ne h15, optField_insert_ne h16]

/-- The keys declared by the `CrimeCategory` schema. -/
def crimeCategoryKeys : List String := ["url", "name"]

/-- The keys declared by the `CrimeLastUpdated` schema. -/
def crimeLastUpdatedKeys : List String := ["date"]

/-- The keys declared by the `Street` schema. -/
def streetKeys : List String := ["id", "name"]

/-- The keys declared by the `Location` schema. -/
def locationKeys : List String := ["latitude", "street", "longitude"]

/-- The keys declared by the `OutcomeStatus` schema. -/
def outcomeStatusKeys : List String := ["category", "date"]

/-- The keys declared by the `OutcomeDetail` schema. -/
def outcomeDetailKeys : List String := ["code", "name"]

/-- The keys declared by the `Outcome` schema. -/
def outcomeKeys : List String := ["category", "date", "person_id", "crime"]

/-- The keys declared by the `CrimeOutcome` schema. -/
def crimeOutcomeKeys : List String := ["category", "date", "person_id"]

/-- The keys declared by the `CrimeOutcomes` schema. -/
def crimeOutcomesKeys : List String := ["crime", "outcomes"]

/-- The keys declared by the `EngagementMethod` schema (`kind` is serialized
as `type`). -/
def engagementMethodKeys : List String := ["type", "title", "description", "url"]

/-- The keys declared by the `ContactDetails` schema (`google_plus` and
`e_messaging` are serialized hyphenated). -/
def contactDetailsKeys : List String :=
  ["email", "telephone", "mobile", "fax", "web", "address", "facebook",
   "twitter", "youtube", "myspace", "bebo", "flickr", "google-plus", "forum",
   "e-messaging", "blog", "rss"]

/-- The keys declared by the `SeniorOfficer` schema. -/
def seniorOfficerKeys : List String := ["name", "rank", "bio", "contact_details"]

/-- The keys declared by the `Neighbourhood` schema. -/
def neighbourhoodKeys : List String := ["id", "name"]

/-- The keys declared by the `LatLng` schema. -/
def latLngKeys : List String := ["latitude", "longitude"]

/-- The keys declared by the `Link` schema. -/
def linkKeys : List String := ["url", "title", "description"]

/-- The keys declared by the `NeighbourhoodLocation` schema (`kind` is
serialized as `type`). -/
def neighbourhoodLocationKeys : List String :=
  ["name", "latitude", "longitude", "postcode", "address", "telephone",
   "type", "description"]

/-- The keys declared by the `NeighbourhoodDetail` schema. -/
def neighbourhoodDetailKeys : List String :=
  ["id", "name", "description", "population", "url_force", "contact_details",
   "centre", "links", "locations"]

/-- The keys declared by the `NeighbourhoodEvent` schema (`kind` is
serialized as `type`). -/
def neighbourhoodEventKeys : List String :=
  ["title", "description", "address", "type", "start_date", "end_date",
   "contact_details"]

/-- The keys declared by the `NeighbourhoodPriority` schema (`issue_date`
and `action_date` are serialized hyphenated). -/
def neighbourhoodPriorityKeys : List String :=
  ["issue", "issue-date", "action", "action-date"]

/-- The keys declared by the `LocateNeighbourhoodResult` schema. -/
def locateNeighbourhoodResultKeys : List String := ["force", "neighbourhood"]

/-- The keys declared by the `OutcomeObject` schema. -/
def outcomeObjectKeys : List String := ["id", "name"]

theorem decCrime_ignores_unknown {k : String} (v : Json)
    (l1 l2 : List (String × Json)) (h : k ∉ crimeKeys) :
    decCrime (.obj (l1 ++ (k, v) :: l2)) = decCrime (.obj (l1 ++ l2)) := by
  simp only [decCrime]
  exact crimeOfFields_ignores_unknown v l1 l2 h

theorem decCrimeCategory_ignores_unknown {k : String} (v : Json)
    (l1 l2 : List (String × Json)) (h : k ∉ crimeCategoryKeys) :
    decCrimeCategory (.obj (l1 ++ (k, v) :: l2)) = decCrimeCategory (.obj (l1 ++ l2)) := by
  simp only [crimeCategoryKeys, List.mem_cons, List.not_mem_nil, or_false, not_or] at h
  obtain ⟨h1, h2⟩ := h
  simp only [decCrimeCategory, reqField_insert_ne h1, reqField_insert_ne h2]

theorem decCrimeLastUpdated_ignores_unknown {k : String} (v : Json)
    (l1 l2 : List (String × Json)) (h : k ∉ crimeLastUpdatedKeys) :
    decCrimeLastUpdated (.obj (l1 ++ (k, v) :: l2))
      = decCrimeLastUpdated (.obj (l1 ++ l2)) := by
  simp only [crimeLastUpdatedKeys, List.mem_cons, List.not_mem_nil, or_false] at h
  simp only [decCrimeLastUpdated, reqField_insert_ne h]

theorem decStreet_ignores_unknown {k : String} (v : Json)
    (l1 l2 : List (String × Json)) (h : k ∉ streetKeys) :
    decStreet (.obj (l1 ++ (k, v) :: l2)) = decStreet (.obj (l1 ++ l2)) := by
  simp only [streetKeys, List.mem_cons, List.not_mem_nil, or_false, not_or] at h
  obtain ⟨h1, h2⟩ := h
  simp only [decStreet, reqField_insert_ne h1, reqField_insert_ne h2]

theorem decLocation_ignores_unknown {k : String} (v : Json)
    (l1 l2 : List (String × Json)) (h : k ∉ locationKeys) :
    decLocation (.obj (l1 ++ (k, v) :: l2)) = decLocation (.obj (l1 ++ l2)) := by
  simp only [locationKeys, List.mem_cons, List.not_mem_nil, or_false, not_or] at h
  obtain ⟨h1, h2, h3⟩ := h
  simp only [decLocation, reqField_insert_ne h1, reqField_insert_ne h2,
    reqField_insert_ne h3]

theorem decOutcomeStatus_ignores_unknown {k : String} (v : Json)
    (l1 l2 : List (String × Json)) (h : k ∉ outcomeStatusKeys) :
    decOutcomeStatus (.obj (l1 ++ (k, v) :: l2)) = decOutcomeStatus (.obj (l1 ++ l2)) := by
  simp only [outcomeStatusKeys, List.mem_cons, List.not_mem_nil, or_false, not_or] at h
  obtain ⟨h1, h2⟩ := h
  simp only [decOutcomeStatus, reqField_insert_ne h1, reqField_insert_ne h2]

theorem decOutcomeDetail_ignores_unknown {k : String} (v : Json)
    (l1 l2 : List (String × Json)) (h : k ∉ outcomeDetailKeys) :
    decOutcomeDetail (.obj (l1 ++ (k, v) :: l2)) = decOutcomeDetail (.obj (l1 ++ l2)) := by
  simp only [outcomeDetailKeys, List.mem_cons, List.not_mem_nil, or_false, not_or] at h
  obtain ⟨h1, h2⟩ := h
  simp only [decOutcomeDetail, reqField_insert_ne h1, reqField_insert_ne h2]

theorem decOutcome_ignores_unknown {k : String} (v : Json)
    (l1 l2 : List (String × Json)) (h : k ∉ outcomeKeys) :
    decOutcome (.obj (l1 ++ (k, v) :: l2)) = decOutcome (.obj (l1 ++ l2)) := by
  simp only [outcomeKeys, List.mem_cons, List.not_mem_nil, or_false, not_or] at h
  obtain ⟨h1, h2, h3, h4⟩ := h
  simp only [decOutcome, reqField_insert_ne h1, reqField_insert_ne h2,
    optField_insert_ne h3, reqField_insert_ne h4]

theorem decCrimeOutcome_ignores_unknown {k : String} (v : Json)
    (l1 l2 : List (String × Json)) (h : k ∉ crimeOutcomeKeys) :
    decCrimeOutcome (.obj (l1 ++ (k, v) :: l2)) = decCrimeOutcome (.obj (l1 ++ l2)) := by
  simp only [crimeOutcomeKeys, List.mem_cons, List.not_mem_nil, or_false, not_or] at h
  obtain ⟨h1, h2, h3⟩ := h
  simp only [decCrimeOutcome, reqField_insert_ne h1, reqField_insert_ne h2,
    optField_insert_ne h3]

theorem decCrimeOutcomes_ignores_unknown {k : String} (v : Json)
    (l1 l2 : List (String × Json)) (h : k ∉ crimeOutcomesKeys) :
    decCrimeOutcomes (.obj (l1 ++ (k, v) :: l2)) = decCrimeOutcomes (.obj (l1 ++ l2)) := by
  simp only [crimeOutcomesKeys, List.mem_cons, List.not_mem_nil, or_false, not_or] at h
  obtain ⟨h1, h2⟩ := h
  simp only [decCrimeOutcomes, reqField_insert_ne h1, reqField_insert_ne h2]

theorem decForce_ignores_unknown {k : String} (v : Json)
    (l1 l2 : List (String × Json)) (h : k ∉ forceKeys) :
    decForce (.obj (l1 ++ (k, v) :: l2)) = decForce (.obj (l1 ++ l2)) := by
  simp only [decForce]
  exact forceOfFields_ignores_unknown v l1 l2 h

theorem decForceDetail_ignores_unknown {k : String} (v : Json)
    (l1 l2 : List (String × Json)) (h : k ∉ forceDetailKeys) :
    decForceDetail (.obj (l1 ++ (k, v) :: l2)) = decForceDetail (.obj (l1 ++ l2)) := by
  simp only [decForceDetail]
  exact forceDetailOfFields_ignores_unknown v l1 l2 h

theorem decEngagementMethod_ignores_unknown {k : String} (v : Json)
    (l1 l2 : List (String × Json)) (h : k ∉ engagementMethodKeys) :
    decEngagementMethod (.obj (l1 ++ (k, v) :: l2))
      = decEngagementMethod (.obj (l1 ++ l2)) := by
  simp only [engagementMethodKeys, List.mem_cons, List.not_mem_nil, or_false, not_or] at h
  obtain ⟨h1, h2, h3, h4⟩ := h
  simp only [decEngagementMethod, reqField_insert_ne h1, optField_insert_ne h2,
    optField_insert_ne h3, optField_insert_ne h4]

theorem decContactDetails_ignores_unknown {k : String} (v : Json)
    (l1 l2 : List (String × Json)) (h : k ∉ contactDetailsKeys) :
    decContactDetails (.obj (l1 ++ (k, v) :: l2))
      = decContactDetails (.obj (l1 ++ l2)) := by
  simp only [contactDetailsKeys, List.mem_cons, List.not_mem_nil, or_false, not_or] at h
  obtain ⟨h1, h2, h3, h4, h5, h6, h7, h8, h9, h10, h11, h12, h13, h14, h15,
    h16, h17⟩ := h
  simp only [decContactDetails, optField_insert_ne h1, optField_insert_ne h2,
    optField_insert_ne h3, optField_insert_ne h4, optField_insert_ne h5,
    optField_insert_ne h6, optField_insert_ne h7, optField_insert_ne h8,
    optField_insert_ne h9, optField_insert_ne h10, optField_insert_ne h11,
    optField_insert_ne h12, optField_insert_ne h13, optField_insert_ne h14,
    optField_insert_ne h15, optField_insert_ne h16, optField_insert_ne h17]

theorem decSeniorOfficer_ignores_unknown {k : String} (v : Json)
    (l1 l2 : List (String × Json)) (h : k ∉ seniorOfficerKeys) :
    decSeniorOfficer (.obj (l1 ++ (k, v) :: l2))
      = decSeniorOfficer (.obj (l1 ++ l2)) := by
  simp only [seniorOfficerKeys, List.mem_cons, List.not_mem_nil, or_false, not_or] at h
  obtain ⟨h1, h2, h3, h4⟩ := h
  simp only [decSeniorOfficer, reqField_insert_ne h1, reqField_insert_ne h2,
    optField_insert_ne h3, reqField_insert_ne h4]

theorem decNeighbourhood_ignores_unknown {k : String} (v : Json)
    (l1 l2 : List (String × Json)) (h : k ∉ neighbourhoodKeys) :
    decNeighbourhood (.obj (l1 ++ (k, v) :: l2))
      = decNeighbourhood (.obj (l1 ++ l2)) := by
  simp only [neighbourhoodKeys, List.mem_cons, List.not_mem_nil, or_false, not_or] at h
  obtain ⟨h1, h2⟩ := h
  simp only [decNeighbourhood, reqField_insert_ne h1, reqField_insert_ne h2]

theorem decLatLng_ignores_unknown {k : String} (v : Json)
    (l1 l2 : List (String × Json)) (h : k ∉ latLngKeys) :
    decLatLng (.obj (l1 ++ (k, v) :: l2)) = decLatLng (.obj (l1 ++ l2)) := by
  simp only [latLngKeys, List.mem_cons, List.not_mem_nil, or_false, not_or] at h
  obtain ⟨h1, h2⟩ := h
  simp only [decLatLng, reqField_insert_ne h1, reqField_insert_ne h2]

theorem decLink_ignores_unknown {k : String} (v : Json)
    (l1 l2 : List (String × Json)) (h : k ∉ linkKeys) :
    decLink (.obj (l1 ++ (k, v) :: l2)) = decLink (.obj (l1 ++ l2)) := by
  simp only [linkKeys, List.mem_cons, List.not_mem_nil, or_false, not_or] at h
  obtain ⟨h1, h2, h3⟩ := h
  simp only [decLink, optField_insert_ne h1, optField_insert_ne h2,
    optField_insert_ne h3]

theorem decNeighbourhoodLocation_ignores_unknown {k : String} (v : Json)
    (l1 l2 : List (String × Json)) (h : k ∉ neighbourhoodLocationKeys) :
    decNeighbourhoodLocation (.obj (l1 ++ (k, v) :: l2))
      = decNeighbourhoodLocation (.obj (l1 ++ l2)) := by
  simp only [neighbourhoodLocationKeys, List.mem_cons, List.not_mem_nil,
    or_false, not_or] at h
  obtain ⟨h1, h2, h3, h4, h5, h6, h7, h8⟩ := h
  simp only [decNeighbourhoodLocation, optField_insert_ne h1,
    optField_insert_ne h2, optField_insert_ne h3, optField_insert_ne h4,
    optField_insert_ne h5, optField_insert_ne h6, optField_insert_ne h7,
    optField_insert_ne h8]

theorem decNeighbourhoodDetail_ignores_unknown {k : String} (v : Json)
    (l1 l2 : List (String × Json)) (h : k ∉ neighbourhoodDetailKeys) :
    decNeighbourhoodDetail (.obj (l1 ++ (k, v) :: l2))
      = decNeighbourhoodDetail (.obj (l1 ++ l2)) := by
  simp only [neighbourhoodDetailKeys, List.mem_cons, List.not_mem_nil,
    or_false, not_or] at h
  obtain ⟨h1, h2, h3, h4, h5, h6, h7, h8, h9⟩ := h
  simp only [decNeighbourhoodDetail, reqField_insert_ne h1,
    reqField_insert_ne h2, optField_insert_ne h3, optField_insert_ne h4,
    optField_insert_ne h5, reqField_insert_ne h6, reqField_insert_ne h7,
    reqField_insert_ne h8, reqField_insert_ne h9]

theorem decNeighbourhoodEvent_ignores_unknown {k : String} (v : Json)
    (l1 l2 : List (String × Json)) (h : k ∉ neighbourhoodEventKeys) :
    decNeighbourhoodEvent (.obj (l1 ++ (k, v) :: l2))
      = decNeighbourhoodEvent (.obj (l1 ++ l2)) := by
  simp only [neighbourhoodEventKeys, List.mem_cons, List.not_mem_nil,
    or_false, not_or] at h
  obtain ⟨h1, h2, h3, h4, h5, h6, h7⟩ := h
  simp only [decNeighbourhoodEvent, optField_insert_ne h1,
    optField_insert_ne h2, optField_insert_ne h3, optField_insert_ne h4,
    optField_insert_ne h5, optField_insert_ne h6, optField_insert_ne h7]

theorem decNeighbourhoodPriority_ignores_unknown {k : String} (v : Json)
    (l1 l2 : List (String × Json)) (h : k ∉ neighbourhoodPriorityKeys) :
    decNeighbourhoodPriority (.obj (l1 ++ (k, v) :: l2))
      = decNeighbourhoodPriority (.obj (l1 ++ l2)) := by
  simp only [neighbourhoodPriorityKeys, List.mem_cons, List.not_mem_nil,
    or_false, not_or] at h
  obtain ⟨h1, h2, h3, h4⟩ := h
  simp only [decNeighbourhoodPriority, optField_insert_ne h1,
    optField_insert_ne h2, optField_insert_ne h3, optField_insert_ne h4]

theorem decLocateNeighbourhoodResult_ignores_unknown {k : String} (v : Json)
    (l1 l2 : List (String × Json)) (h : k ∉ locateNeighbourhoodResultKeys) :
    decLocateNeighbourhoodResult (.obj (l1 ++ (k, v) :: l2))
      = decLocateNeighbourhoodResult (.obj (l1 ++ l2)) := by
  simp only [locateNeighbourhoodResultKeys, List.mem_cons, List.not_mem_nil,
    or_false, not_or] at h
  obtain ⟨h1, h2⟩ := h
  simp only [decLocateNeighbourhoodResult, reqField_insert_ne h1,
    reqField_insert_ne h2]

theorem decOutcomeObject_ignores_unknown {k : String} (v : Json)
    (l1 l2 : List (String × Json)) (h : k ∉ outcomeObjectKeys) :
    decOutcomeObject (.obj (l1 ++ (k, v) :: l2))
      = decOutcomeObject (.obj (l1 ++ l2)) := by
  simp only [outcomeObjectKeys, List.mem_cons, List.not_mem_nil, or_false, not_or] at h
  obtain ⟨h1, h2⟩ := h
  simp only [decOutcomeObject, optField_insert_ne h1, optField_insert_ne h2]

theorem decStopAndSearch_ignores_unknown {k : String} (v : Json)
    (l1 l2 : List (String × Json)) (h : k ∉ stopAndSearchKeys) :
    decStopAndSearch (.obj (l1 ++ (k, v) :: l2))
      = decStopAndSearch (.obj (l1 ++ l2)) := by
  simp only [decStopAndSearch]
  exact stopAndSearchOfFields_ignores_unknown v l1 l2 h

/-- C7: unknown JSON object keys are ignored: inserting a binding for any key
not declared by the schema, at any position in an object's field list, leaves
the decode result of that object unchanged (so it never turns a successful
decode into a failure), for every object schema of the crate — the crime,
outcome, force, officer, contact, neighbourhood, locate-neighbourhood and
stop-and-search schemas, nested objects included. -/
theorem c7_unknown_keys_ignored (k : String) (v : Json)
    (l1 l2 : List (String × Json)) :
    (k ∉ crimeKeys → decCrime (.obj (l1 ++ (k, v) :: l2)) = decCrime (.obj (l1 ++ l2)))
    ∧ (k ∉ crimeCategoryKeys →
      decCrimeCategory (.obj (l1 ++ (k, v) :: l2)) = decCrimeCategory (.obj (l1 ++ l2)))
    ∧ (k ∉ crimeLastUpdatedKeys →
      decCrimeLastUpdated (.obj (l1 ++ (k, v) :: l2))
        = decCrimeLastUpdated (.obj (l1 ++ l2)))
    ∧ (k ∉ streetKeys →
      decStreet (.obj (l1 ++ (k, v) :: l2)) = decStreet (.obj (l1 ++ l2)))
    ∧ (k ∉ locationKeys →
      decLocation (.obj (l1 ++ (k, v) :: l2)) = decLocation (.obj (l1 ++ l2)))
    ∧ (k ∉ outcomeStatusKeys →
      decOutcomeStatus (.obj (l1 ++ (k, v) :: l2)) = decOutcomeStatus (.obj (l1 ++ l2)))
    ∧ (k ∉ outcomeDetailKeys →
      decOutcomeDetail (.obj (l1 ++ (k, v) :: l2)) = decOutcomeDetail (.obj (l1 ++ l2)))
    ∧ (k ∉ outcomeKeys →
      decOutcome (.obj (l1 ++ (k, v) :: l2)) = decOutcome (.obj (l1 ++ l2)))
    ∧ (k ∉ crimeOutcomeKeys →
      decCrimeOutcome (.obj (l1 ++ (k, v) :: l2)) = decCrimeOutcome (.obj (l1 ++ l2)))
    ∧ (k ∉ crimeOutcomesKeys →
      decCrimeOutcomes (.obj (l1 ++ (k, v) :: l2)) = decCrimeOutcomes (.obj (l1 ++ l2)))
    ∧ (k ∉ forceKeys →
      decForce (.obj (l1 ++ (k, v) :: l2)) = decForce (.obj (l1 ++ l2)))
    ∧ (k ∉ forceDetailKeys →
      decForceDetail (.obj (l1 ++ (k, v) :: l2)) = decForceDetail (.obj (l1 ++ l2)))
    ∧ (k ∉ engagementMethodKeys →
      decEngagementMethod (.obj (l1 ++ (k, v) :: l2))
        = decEngagementMethod (.obj (l1 ++ l2)))
    ∧ (k ∉ contactDetailsKeys →
      decContactDetails (.obj (l1 ++ (k, v) :: l2)) = decContactDetails (.obj (l1 ++ l2)))
    ∧ (k ∉ seniorOfficerKeys →
      decSeniorOfficer (.obj (l1 ++ (k, v) :: l2)) = decSeniorOfficer (.obj (l1 ++ l2)))
    ∧ (k ∉ neighbourhoodKeys →
      decNeighbourhood (.obj (l1 ++ (k, v) :: l2)) = decNeighbourhood (.obj (l1 ++ l2)))
    ∧ (k ∉ latLngKeys →
      decLatLng (.obj (l1 ++ (k, v) :: l2)) = decLatLng (.obj (l1 ++ l2)))
    ∧ (k ∉ linkKeys →
      decLink (.obj (l1 ++ (k, v) :: l2)) = decLink (.obj (l1 ++ l2)))
    ∧ (k ∉ neighbourhoodLocationKeys →
      decNeighbourhoodLocation (.obj (l1 ++ (k, v) :: l2))
        = decNeighbourhoodLocation (.obj (l1 ++ l2)))
    ∧ (k ∉ neighbourhoodDetailKeys →
      decNeighbourhoodDetail (.obj (l1 ++ (k, v) :: l2))
        = decNeighbourhoodDetail (.obj (l1 ++ l2)))
    ∧ (k ∉ neighbourhoodEventKeys →
      decNeighbourhoodEvent (.obj (l1 ++ (k, v) :: l2))
        = decNeighbourhoodEvent (.obj (l1 ++ l2)))
    ∧ (k ∉ neighbourhoodPriorityKeys →
      decNeighbourhoodPriority (.obj (l1 ++ (k, v) :: l2))
        = decNeighbourhoodPriority (.obj (l1 ++ l2)))
    ∧ (k ∉ locateNeighbourhoodResultKeys →
      decLocateNeighbourhoodResult (.obj (l1 ++ (k, v) :: l2))
        = decLocateNeighbourhoodResult (.obj (l1 ++ l2)))
    ∧ (k ∉ outcomeObjectKeys →
      decOutcomeObject (.obj (l1 ++ (k, v) :: l2)) = decOutcomeObject (.obj (l1 ++ l2)))
    ∧ (k ∉ stopAndSearchKeys →
      decStopAndSearch (.obj (l1 ++ (k, v) :: l2))
        = decStopAndSearch (.obj (l1 ++ l2))) :=
  ⟨decCrime_ignores_unknown v l1 l2,
   decCrimeCategory_ignores_unknown v l1 l2,
   decCrimeLastUpdated_ignores_unknown v l1 l2,
   decStreet_ignores_unknown v l1 l2,
   decLocation_ignores_unknown v l1 l2,
   decOutcomeStatus_ignores_unknown v l1 l2,
   decOutcomeDetail_ignores_unknown v l1 l2,
   decOutcome_ignores_unknown v l1 l2,
   decCrimeOutcome_ignores_unknown v l1 l2,
   decCrimeOutcomes_ignores_unknown v l1 l2,
   decForce_ignores_unknown v l1 l2,
   decForceDetail_ignores_unknown v l1 l2,
   decEngagementMethod_ignores_unknown v l1 l2,
   decContactDetails_ignores_unknown v l1 l2,
   decSeniorOfficer_ignores_unknown v l1 l2,
   decNeighbourhood_ignores_unknown v l1 l2,
   decLatLng_ignores_unknown v l1 l2,
   decLink_ignores_unknown v l1 l2,
   decNeighbourhoodLocation_ignores_unknown v l1 l2,
   decNeighbourhoodDetail_ignores_unknown v l1 l2,
   decNeighbourhoodEvent_ignores_unknown v l1 l2,
   decNeighbourhoodPriority_ignores_unknown v l1 l2,
   decLocateNeighbourhoodResult_ignores_unknown v l1 l2,
   decOutcomeObject_ignores_unknown v l1 l2,
   decStopAndSearch_ignores_unknown v l1 l2⟩

/-- C7 witness: inserting the undeclared key `"extra_key"` at the front of
the test crime object leaves the decode result unchanged. -/
theorem c7_witness :
    decCrime (.obj ([] ++ ("extra_key", Json.str "x") :: mockCrimeFields))
      = decCrime (.obj ([] ++ mockCrimeFields)) :=
  (c7_unknown_keys_ignored "extra_key" (.str "x") [] mockCrimeFields).1 (by decide)

end UkPolice
